import Mathlib

/-
Verification of the catalog-fetch core of `src/hello-rn/App.tsx`.

The component `App` holds four pieces of state (lines 31-34):
  meals : MealListItem[]   (initially [])
  isLoading : boolean      (initially true)
  searchQuery : string     (initially "")
  error : string | null    (initially null)

`fetchMeals` (lines 36-58) performs one HTTP GET, parses the body as JSON,
and mutates the state; `filteredMeals` (lines 64-66) is the derived
case-insensitive substring filter; the render (lines 68-86) shows a loading
screen or an error screen depending on `isLoading`, `error` and
`meals.length`.

The embedding below models JSON values (as produced by `response.json()`),
JavaScript truthiness and property access, and `fetchMeals` as a list of
state-mutation events folded over the state, so that the intermediate
states of one invocation (the loading-flag trace) are visible.
-/

namespace App

/-- A JSON value as produced by `response.json()`.  Property access on a
non-object value, or on an object lacking the key, yields `none`
(JavaScript `undefined`). -/
inductive Json where
  | null
  | bool (b : Bool)
  | num (n : Int)
  | str (s : String)
  | arr (elems : List Json)
  | obj (fields : List (String × Json))

/-- JavaScript truthiness of a JSON value: `null`, `false`, `0` and `""`
are falsy; arrays and objects (even empty ones) are truthy. -/
def jsTruthy : Json → Bool
  | .null => false
  | .bool b => b
  | .num n => n != 0
  | .str s => s != ""
  | .arr _ => true
  | .obj _ => true

/-- JavaScript property access `j[key]`: `none` models `undefined`. -/
def jsGet (j : Json) (key : String) : Option Json :=
  match j with
  | .obj fields => (fields.find? (fun kv => kv.fst == key)).map (fun kv => kv.snd)
  | _ => none

/-- One remote record as typed by the source (lines 14-18). -/
structure MealListItem where
  idMeal : String
  strMeal : String
  strMealThumb : String
deriving Repr, DecidableEq

/-- Does `pat` occur as a contiguous substring of `s` (both as char lists)?
Models JavaScript `String.prototype.includes`. -/
def includesAux (pat : List Char) : List Char → Bool
  | [] => pat.isPrefixOf []
  | c :: cs => pat.isPrefixOf (c :: cs) || includesAux pat cs

/-- JavaScript `s.includes(pat)`. -/
def jsIncludes (s pat : String) : Bool :=
  includesAux pat.toList s.toList

/-- JavaScript `s.toLowerCase()`, character by character. -/
def jsToLower (s : String) : String :=
  ⟨s.data.map Char.toLower⟩

/-- The derived filter (lines 64-66):
`meals.filter((meal) => meal.strMeal.toLowerCase().includes(searchQuery.toLowerCase()))`. -/
def filteredMeals (meals : List MealListItem) (searchQuery : String) : List MealListItem :=
  meals.filter (fun meal => jsIncludes (jsToLower meal.strMeal) (jsToLower searchQuery))

/-- The outcome of `await fetch(API_URL)` followed by `await response.json()`:
either the transport fails (fetch rejects), or a response arrives with a
status code and a body that either parses as JSON (`some data`) or does not
(`none`, making `response.json()` reject). -/
inductive FetchResult where
  | transportError
  | response (status : Nat) (body : Option Json)

/-- `response.ok`: status in the 200-299 range. -/
def responseOk (status : Nat) : Bool :=
  200 ≤ status && status ≤ 299

/-- The three ways the try block of `fetchMeals` can throw. -/
inductive FetchFailure where
  | transport
  | httpStatus (statusCode : Nat)
  | malformedBody
deriving Repr, DecidableEq

/-- The try block of `fetchMeals` (lines 40-51), up to the `setMeals` call:
returns the value passed to `setMeals` on success, or the failure that was
thrown.  Mirrors:
  if (!response.ok) throw new Error("HTTP Error " + response.status);
  const data = await response.json();
  if (data && data.meals) setMeals(data.meals); else setMeals([]); -/
def tryBody (resp : FetchResult) : Except FetchFailure Json :=
  match resp with
  | .transportError => .error .transport
  | .response status body =>
    if responseOk status then
      match body with
      | none => .error .malformedBody
      | some data =>
        match jsGet data "meals" with
        | some v => if jsTruthy data && jsTruthy v then .ok v else .ok (.arr [])
        | none => .ok (.arr [])
    else .error (.httpStatus status)

/-- The diagnostic message of the error thrown on a non-success status
(line 42); transport and parse failures carry the runtime's own message. -/
def thrownMessage : FetchFailure → Option String
  | .httpStatus code => some ("HTTP Error " ++ toString code)
  | _ => none

/-- The component's state (lines 31-34).  `meals` is kept as a raw JSON
value because `setMeals(data.meals as MealListItem[])` is a compile-time
cast that performs no runtime conversion. -/
structure AppState where
  meals : Json
  isLoading : Bool
  searchQuery : String
  error : Option String

/-- The initial state (lines 31-34). -/
def initialState : AppState :=
  { meals := .arr [], isLoading := true, searchQuery := "", error := none }

/-- One observable action of the component body: a state-setter call or the
issuing of the HTTP request. -/
inductive Mutation where
  | setMeals (v : Json)
  | setIsLoading (b : Bool)
  | setSearchQuery (q : String)
  | setError (e : Option String)
  | httpGet (url : String)

/-- Effect of one action on the state; `httpGet` changes no state. -/
def applyMutation (st : AppState) : Mutation → AppState
  | .setMeals v => { st with meals := v }
  | .setIsLoading b => { st with isLoading := b }
  | .setSearchQuery q => { st with searchQuery := q }
  | .setError e => { st with error := e }
  | .httpGet _ => st

/-- The fixed endpoint (line 21). -/
def API_URL : String :=
  "https://www.themealdb.com/api/json/v1/1/filter.php?c=Seafood"

/-- The fixed user-facing failure message (line 54). -/
def errorMessage : String :=
  "Falha ao carregar o catálogo de Frutos do Mar."

/-- The sequence of actions performed by one `fetchMeals()` invocation
(lines 36-58), in program order:
  setIsLoading(true); setError(null);
  the GET; then setMeals(...) on success or setError(message) on failure;
  finally setIsLoading(false). -/
def fetchMealsEvents (resp : FetchResult) : List Mutation :=
  [.setIsLoading true, .setError none, .httpGet API_URL] ++
    (match tryBody resp with
      | .ok v => [.setMeals v]
      | .error _ => [.setError (some errorMessage)]) ++
    [.setIsLoading false]

/-- The settled state after one `fetchMeals()` invocation from `st`, given
the network outcome `resp`. -/
def fetchMeals (st : AppState) (resp : FetchResult) : AppState :=
  (fetchMealsEvents resp).foldl applyMutation st

/-- All intermediate states of one `fetchMeals()` invocation, starting with
the state before the call. -/
def fetchMealsTrace (st : AppState) (resp : FetchResult) : List AppState :=
  List.scanl applyMutation st (fetchMealsEvents resp)

/-- The state right after the synchronous prologue of `fetchMeals`
(lines 37-38: `setIsLoading(true); setError(null)`). -/
def fetchMealsStart (st : AppState) : AppState :=
  [Mutation.setIsLoading true, Mutation.setError none].foldl applyMutation st

/-- The actions of `setSearchQuery(q)` (the `useState` setter, line 33,
wired to the text input at lines 106-112): a single state write. -/
def setQueryEvents (q : String) : List Mutation :=
  [.setSearchQuery q]

/-- The state after `setSearchQuery(q)`. -/
def setQuery (st : AppState) (q : String) : AppState :=
  (setQueryEvents q).foldl applyMutation st

/-- `meals.length === 0` as tested by the render (lines 68 and 77):
`length` of a non-array is `undefined`, and `undefined === 0` is false. -/
def jsLengthIsZero : Json → Bool
  | .arr l => l.isEmpty
  | _ => false

/-- JavaScript truthiness of the `error` state slot (`string | null`). -/
def errTruthy : Option String → Bool
  | some s => s != ""
  | none => false

/-- The render condition of the error screen (line 77):
`if (error && meals.length === 0)`. -/
def showsErrorScreen (st : AppState) : Bool :=
  errTruthy st.error && jsLengthIsZero st.meals

/-- Number of `true` to `false` steps in a boolean sequence. -/
def descents : List Bool → Nat
  | [] => 0
  | [_] => 0
  | a :: b :: rest => (if a && !b then 1 else 0) + descents (b :: rest)

/-- Is this action the HTTP request? -/
def isNetworkEvent : Mutation → Bool
  | .httpGet _ => true
  | _ => false

/-! Concrete sample data for witnesses and counterexamples (the record of
Scenario A of the spec). -/

/-- The Scenario A record, as a raw JSON object. -/
def sampleRecord : Json :=
  .obj [("idMeal", .str "1"), ("strMeal", .str "Shrimp Curry"), ("strMealThumb", .str "u1")]

/-- The Scenario A record, as a typed item. -/
def shrimpItem : MealListItem :=
  { idMeal := "1", strMeal := "Shrimp Curry", strMealThumb := "u1" }

/-- A state holding one previously fetched record. -/
def populatedState : AppState :=
  { meals := Json.arr [sampleRecord], isLoading := false, searchQuery := "", error := none }

/-- Scenario A response: success status, body `{"meals":[sampleRecord]}`. -/
def scenarioAResp : FetchResult :=
  .response 200 (some (.obj [("meals", .arr [sampleRecord])]))

/-- A success response whose `meals` array holds one record with no fields
at all: `{"meals":[{}]}`. -/
def emptyRecordResp : FetchResult :=
  .response 200 (some (.obj [("meals", .arr [.obj []])]))

/-! Helper lemmas shared by the claim theorems. -/

theorem fetchMeals_of_ok (st : AppState) (resp : FetchResult) (v : Json)
    (h : tryBody resp = Except.ok v) :
    fetchMeals st resp =
      { st with meals := v, isLoading := false, error := none } := by
  simp [fetchMeals, fetchMealsEvents, h, applyMutation, List.foldl]

theorem fetchMeals_of_err (st : AppState) (resp : FetchResult) (k : FetchFailure)
    (h : tryBody resp = Except.error k) :
    fetchMeals st resp =
      { st with isLoading := false, error := some errorMessage } := by
  simp [fetchMeals, fetchMealsEvents, h, applyMutation, List.foldl]

theorem isLoading_along_trace (st : AppState) (resp : FetchResult) :
    (fetchMealsTrace st resp).map AppState.isLoading =
      [st.isLoading, true, true, true, true, false] := by
  cases h : tryBody resp <;>
    simp [fetchMealsTrace, fetchMealsEvents, h, applyMutation, List.scanl]

theorem fetchMealsTrace_start (st : AppState) (resp : FetchResult) :
    (fetchMealsTrace st resp).get? 2 = some (fetchMealsStart st) := by
  cases h : tryBody resp <;>
    simp [fetchMealsTrace, fetchMealsEvents, fetchMealsStart, h, applyMutation,
      List.scanl, List.foldl]

theorem jsIncludes_empty (s : String) : jsIncludes s "" = true := by
  show includesAux [] s.toList = true
  cases s.toList with
  | nil => rfl
  | cons c cs => simp [includesAux, List.isPrefixOf]

theorem jsToLower_empty : jsToLower "" = "" := rfl

/-! Claim theorems. -/

/-- C1: every `fetchMeals()` invocation sets `isLoading` to true as its
first action, performs exactly one true-to-false transition of the flag
over the rest of the invocation, and leaves `isLoading` false once the call
settles, whether the fetch succeeds or fails. -/
theorem fetchMeals_loading_contract (st : AppState) (resp : FetchResult) :
    ((fetchMealsTrace st resp).map AppState.isLoading).get? 1 = some true ∧
    descents (((fetchMealsTrace st resp).map AppState.isLoading).drop 1) = 1 ∧
    (fetchMeals st resp).isLoading = false := by
  refine ⟨?_, ?_, ?_⟩
  · rw [isLoading_along_trace]
    rfl
  · rw [isLoading_along_trace]
    rfl
  · cases h : tryBody resp with
    | ok v => rw [fetchMeals_of_ok st resp v h]
    | error k => rw [fetchMeals_of_err st resp k h]

/-- C2: from any state holding a non-empty `meals` array, a failed
`fetchMeals()` invocation (any failure kind) leaves `meals` exactly as it
was before the call. -/
theorem fetchMeals_failure_preserves_meals (st : AppState) (resp : FetchResult)
    (ms : List Json) (k : FetchFailure)
    (_hms : st.meals = Json.arr ms) (_hne : ms ≠ [])
    (hfail : tryBody resp = Except.error k) :
    (fetchMeals st resp).meals = st.meals := by
  rw [fetchMeals_of_err st resp k hfail]

theorem fetchMeals_failure_preserves_meals_witness :
    populatedState.meals = Json.arr [sampleRecord] ∧
    ([sampleRecord] : List Json) ≠ [] ∧
    tryBody FetchResult.transportError = Except.error FetchFailure.transport ∧
    (fetchMeals populatedState FetchResult.transportError).meals = populatedState.meals :=
  ⟨rfl, by simp, rfl,
    fetchMeals_failure_preserves_meals populatedState FetchResult.transportError
      [sampleRecord] FetchFailure.transport rfl (by simp) rfl⟩

/-- C3: `filteredMeals` returns exactly the subsequence (order preserved)
of `meals` whose `strMeal`, lower-cased, contains the lower-cased query as
a substring; the empty query returns the whole list unchanged, and a query
matching no item returns the empty list. -/
theorem filteredMeals_spec (items : List MealListItem) (q : String) :
    (filteredMeals items q).Sublist items ∧
    (∀ m : MealListItem, m ∈ filteredMeals items q ↔
      m ∈ items ∧ jsIncludes (jsToLower m.strMeal) (jsToLower q) = true) ∧
    filteredMeals items "" = items ∧
    ((∀ m ∈ items, jsIncludes (jsToLower m.strMeal) (jsToLower q) = false) →
      filteredMeals items q = []) := by
  refine ⟨List.filter_sublist _, ?_, ?_, ?_⟩
  · intro m
    simp [filteredMeals, List.mem_filter]
  · rw [filteredMeals]
    apply List.filter_eq_self.mpr
    intro m _
    rw [jsToLower_empty]
    exact jsIncludes_empty _
  · intro h
    rw [filteredMeals]
    apply List.filter_eq_nil_iff.mpr
    intro m hm
    simp [h m hm]

theorem filteredMeals_spec_witness :
    (∀ m ∈ [shrimpItem], jsIncludes (jsToLower m.strMeal) (jsToLower "beef") = false) ∧
    filteredMeals [shrimpItem] "beef" = [] ∧
    filteredMeals [shrimpItem] "shrimp" = [shrimpItem] :=
  ⟨by decide, (filteredMeals_spec [shrimpItem] "beef").2.2.2 (by decide), by decide⟩

/-- C4 counterexample: a failed refresh from a state whose `meals` holds
one record leaves `error` set to the (truthy) message while `meals` is
still non-empty, so the `error` field is not set "only when items is
empty". -/
theorem error_set_despite_populated_items :
    (fetchMeals populatedState FetchResult.transportError).error = some errorMessage ∧
    errTruthy (some errorMessage) = true ∧
    (fetchMeals populatedState FetchResult.transportError).meals = Json.arr [sampleRecord] ∧
    Json.arr [sampleRecord] ≠ Json.arr [] :=
  ⟨rfl, by decide, rfl, by simp⟩

/-- C4 (amended): on every failed attempt the `error` field is set to the
fixed message regardless of `meals`, and the error screen (render
condition `error && meals.length === 0`, line 77) is shown exactly when the
retained `meals` array is empty; on a successful attempt `error` is null.
So only the displayed error, not the stored field, is suppressed by a
populated list. -/
theorem fetchMeals_error_field_and_display (st : AppState) (resp : FetchResult) :
    (∀ k, tryBody resp = Except.error k →
      (fetchMeals st resp).error = some errorMessage ∧
      showsErrorScreen (fetchMeals st resp) = jsLengthIsZero st.meals) ∧
    (∀ v, tryBody resp = Except.ok v → (fetchMeals st resp).error = none) := by
  constructor
  · intro k hk
    rw [fetchMeals_of_err st resp k hk]
    exact ⟨rfl, by simp [showsErrorScreen, errTruthy, errorMessage]⟩
  · intro v hv
    rw [fetchMeals_of_ok st resp v hv]

theorem fetchMeals_error_field_and_display_witness :
    tryBody FetchResult.transportError = Except.error FetchFailure.transport ∧
    (fetchMeals populatedState FetchResult.transportError).error = some errorMessage ∧
    showsErrorScreen (fetchMeals populatedState FetchResult.transportError) = false :=
  ⟨rfl,
    ((fetchMeals_error_field_and_display populatedState FetchResult.transportError).1
      FetchFailure.transport rfl).1,
    (((fetchMeals_error_field_and_display populatedState FetchResult.transportError).1
      FetchFailure.transport rfl).2).trans rfl⟩

/-- C5 counterexample: the success path performs no presence check on the
record fields: a response `{"meals":[{}]}` settles successfully, storing
the fieldless record verbatim in `meals` (the cast
`data.meals as MealListItem[]` checks nothing at runtime), with no error. -/
theorem fieldless_record_accepted :
    (fetchMeals initialState emptyRecordResp).meals = Json.arr [Json.obj []] ∧
    jsGet (Json.obj []) "idMeal" = none ∧
    jsGet (Json.obj []) "strMeal" = none ∧
    jsGet (Json.obj []) "strMealThumb" = none ∧
    (fetchMeals initialState emptyRecordResp).error = none :=
  ⟨rfl, rfl, rfl, rfl, rfl⟩

/-- C5 (amended): on a successful fetch whose parsed body is an object
whose `meals` key holds an array, the records are passed through verbatim
(no mapping and no runtime check of any field) and `meals` is replaced by
exactly that array, in server response order, with `error` null and
`isLoading` false. -/
theorem fetchMeals_success_passthrough (st : AppState) (status : Nat)
    (fields : List (String × Json)) (ms : List Json)
    (hok : responseOk status = true)
    (hmeals : jsGet (Json.obj fields) "meals" = some (Json.arr ms)) :
    fetchMeals st (.response status (some (.obj fields))) =
      { st with meals := Json.arr ms, isLoading := false, error := none } := by
  apply fetchMeals_of_ok
  simp [tryBody, hok, hmeals, jsTruthy]

theorem fetchMeals_success_passthrough_witness :
    responseOk 200 = true ∧
    jsGet (Json.obj [("meals", Json.arr [sampleRecord])]) "meals" = some (Json.arr [sampleRecord]) ∧
    fetchMeals initialState scenarioAResp =
      { initialState with meals := Json.arr [sampleRecord], isLoading := false, error := none } :=
  ⟨rfl, rfl,
    fetchMeals_success_passthrough initialState 200
      [("meals", Json.arr [sampleRecord])] [sampleRecord] rfl rfl⟩

/-- C6: on a success status with a JSON object body whose `meals` key is
absent or null, the call settles with `meals` the empty array and `error`
null: a missing or null array is zero items, not a failure. -/
theorem fetchMeals_missing_or_null_meals (st : AppState) (status : Nat)
    (fields : List (String × Json))
    (hok : responseOk status = true)
    (hmeals : jsGet (Json.obj fields) "meals" = none ∨
      jsGet (Json.obj fields) "meals" = some Json.null) :
    fetchMeals st (.response status (some (.obj fields))) =
      { st with meals := Json.arr [], isLoading := false, error := none } := by
  apply fetchMeals_of_ok
  cases hmeals with
  | inl h => simp [tryBody, hok, h]
  | inr h => simp [tryBody, hok, h, jsTruthy]

theorem fetchMeals_missing_or_null_meals_witness :
    responseOk 200 = true ∧
    jsGet (Json.obj [("meals", Json.null)]) "meals" = some Json.null ∧
    fetchMeals initialState (.response 200 (some (.obj [("meals", Json.null)]))) =
      { initialState with meals := Json.arr [], isLoading := false, error := none } :=
  ⟨rfl, rfl,
    fetchMeals_missing_or_null_meals initialState 200 [("meals", Json.null)] rfl (Or.inr rfl)⟩

/-- C7: a non-success HTTP status makes the attempt fail with
`httpStatus status` (the thrown diagnostic carries the code, line 42);
after settlement `error` holds the message, `meals` is unchanged and
`isLoading` is false. -/
theorem fetchMeals_http_error (st : AppState) (status : Nat) (body : Option Json)
    (hbad : responseOk status = false) :
    tryBody (.response status body) = Except.error (.httpStatus status) ∧
    thrownMessage (.httpStatus status) = some ("HTTP Error " ++ toString status) ∧
    (fetchMeals st (.response status body)).error = some errorMessage ∧
    (fetchMeals st (.response status body)).meals = st.meals ∧
    (fetchMeals st (.response status body)).isLoading = false := by
  have htry : tryBody (.response status body) = Except.error (.httpStatus status) := by
    simp [tryBody, hbad]
  refine ⟨htry, rfl, ?_, ?_, ?_⟩ <;> rw [fetchMeals_of_err st _ _ htry]

theorem fetchMeals_http_error_witness :
    responseOk 500 = false ∧
    (fetchMeals initialState (.response 500 none)).error = some errorMessage ∧
    (fetchMeals initialState (.response 500 none)).meals = Json.arr [] ∧
    (fetchMeals initialState (.response 500 none)).isLoading = false := by
  have h := fetchMeals_http_error initialState 500 none rfl
  refine ⟨rfl, h.2.2.1, ?_, h.2.2.2.2⟩
  rw [h.2.2.2.1]
  rfl

/-- C8: the prologue of every `fetchMeals()` invocation clears `error`
(it is null in the state reached after lines 37-38, which is the third
state of the invocation trace), and a successful attempt settles with
`error` still null, also after a previous failure. -/
theorem fetchMeals_clears_error (st : AppState) (resp : FetchResult) :
    (fetchMealsStart st).error = none ∧
    (fetchMealsTrace st resp).get? 2 = some (fetchMealsStart st) ∧
    (∀ v, tryBody resp = Except.ok v → (fetchMeals st resp).error = none) := by
  refine ⟨rfl, fetchMealsTrace_start st resp, ?_⟩
  intro v hv
  rw [fetchMeals_of_ok st resp v hv]

theorem fetchMeals_clears_error_witness :
    (fetchMeals initialState FetchResult.transportError).error = some errorMessage ∧
    tryBody scenarioAResp = Except.ok (Json.arr [sampleRecord]) ∧
    (fetchMeals (fetchMeals initialState FetchResult.transportError) scenarioAResp).error = none :=
  ⟨rfl, rfl,
    (fetchMeals_clears_error (fetchMeals initialState FetchResult.transportError)
      scenarioAResp).2.2 (Json.arr [sampleRecord]) rfl⟩

/-- C9: `setSearchQuery(q)` is a single synchronous state write: it
replaces `searchQuery` with `q`, leaves `meals`, `isLoading` and `error`
unchanged, and its event list contains no network request. -/
theorem setQuery_frame (st : AppState) (q : String) :
    (setQuery st q).searchQuery = q ∧
    (setQuery st q).meals = st.meals ∧
    (setQuery st q).isLoading = st.isLoading ∧
    (setQuery st q).error = st.error ∧
    setQueryEvents q = [Mutation.setSearchQuery q] ∧
    (setQueryEvents q).all (fun m => !isNetworkEvent m) = true :=
  ⟨rfl, rfl, rfl, rfl, rfl, rfl⟩

/-- C10: every failed attempt, whatever the failure kind, settles with the
same fixed `error` string, so two runs failing for different causes have
identical observable error state. -/
theorem failure_kinds_indistinguishable (st1 st2 : AppState) (r1 r2 : FetchResult)
    (k1 k2 : FetchFailure)
    (h1 : tryBody r1 = Except.error k1) (h2 : tryBody r2 = Except.error k2) :
    (fetchMeals st1 r1).error = some errorMessage ∧
    (fetchMeals st1 r1).error = (fetchMeals st2 r2).error := by
  rw [fetchMeals_of_err st1 r1 k1 h1, fetchMeals_of_err st2 r2 k2 h2]
  exact ⟨rfl, rfl⟩

theorem failure_kinds_indistinguishable_witness :
    tryBody FetchResult.transportError = Except.error FetchFailure.transport ∧
    tryBody (.response 500 none) = Except.error (FetchFailure.httpStatus 500) ∧
    FetchFailure.transport ≠ FetchFailure.httpStatus 500 ∧
    (fetchMeals initialState FetchResult.transportError).error =
      (fetchMeals populatedState (.response 500 none)).error :=
  ⟨rfl, rfl, by decide,
    (failure_kinds_indistinguishable initialState populatedState
      FetchResult.transportError (.response 500 none)
      FetchFailure.transport (FetchFailure.httpStatus 500) rfl rfl).2⟩

end App
